import Mathlib

/-!
Request builders of `mod/execution/types.go` and root command of
`mod/node-builder/builder.go`.

Shallow embedding of the two Go files:

* `mod/execution/types.go`: the three request structs and their builders
  `BuildNewPayloadRequest`, `BuildForkchoiceUpdateRequest`,
  `BuildGetPayloadRequest`.
* `mod/node-builder/builder.go`: `NodeBuilder`, `NewNodeBuilder`,
  `BuildRootCmd` and the `PersistentPreRunE` closure of the root command.

Conventions of the embedding:

* a Go pointer `*T` and a Go interface value are `Option T`, `none` being nil;
* a Go slice `[]T` is `Option (List T)`, `none` being the nil slice;
* `uint32` values are natural numbers; the builders only copy them;
* a function of another package is a field of an environment record, and its
  calls are recorded in a trace in the order the Go code makes them.
-/

namespace BeaconKit

/-! ## Types declared outside the two files -/

/-- Modelled from the spec: `primitives.ExecutionHash` is declared in
`mod/primitives`; a versioned hash is a 32-byte commitment, kept here as the
number its bytes spell. -/
abbrev ExecutionHash := Fin (2 ^ 256)

/-- Modelled from the spec: `primitives.Root` is declared in `mod/primitives`;
a 32-byte root, kept as the number its bytes spell. -/
abbrev Root := Fin (2 ^ 256)

/-- Go slice: `none` is the nil slice, `some l` a slice with elements `l`. -/
abbrev Slice (α : Type) := Option (List α)

/-- Go `len` of a slice; the nil slice has length 0. -/
def Slice.len {α : Type} : Slice α → Nat
  | none => 0
  | some l => l.length

/-- Go indexing of a slice, `none` when the index is out of range. -/
def Slice.at {α : Type} : Slice α → Nat → Option α
  | none, _ => none
  | some l, i => l.get? i

/-- Modelled from the spec: the concrete payload behind the interface
`types.ExecutionPayload` is declared in `mod/execution/types`; the fields are
those of the data model (parent hash, fee recipient, roots, logs bloom,
randomness, block number, gas limit and used, timestamp, extra data, base fee,
optional blob-gas fields, transaction list, optional withdrawal list), with
the fork version the payload is processed under. A transaction is its byte
string. -/
structure ExecutableData where
  Version : Nat
  ParentHash : ExecutionHash
  FeeRecipient : Nat
  StateRoot : Root
  ReceiptsRoot : Root
  LogsBloom : List Nat
  Random : Root
  Number : Nat
  GasLimit : Nat
  GasUsed : Nat
  Timestamp : Nat
  ExtraData : List Nat
  BaseFeePerGas : Nat
  BlobGasUsed : Option Nat
  ExcessBlobGas : Option Nat
  Transactions : List (List Nat)
  Withdrawals : Option (List Nat)
  deriving DecidableEq

/-- The interface value `types.ExecutionPayload`: `none` is the nil interface. -/
abbrev ExecutionPayload := Option ExecutableData

/-- Modelled from the spec: a transaction carries blobs when it is a typed
transaction of the blob type, whose envelope starts with the byte `0x03`. -/
def isBlobTx (tx : List Nat) : Bool :=
  match tx with
  | 3 :: _ => true
  | _ => false

/-- Modelled from the spec: `blobCount(P)`, the number of blob-carrying
transactions of a payload; the nil payload has none. -/
def blobCount : ExecutionPayload → Nat
  | none => 0
  | some d => (d.Transactions.filter isBlobTx).length

/-- Modelled from the spec: the fork version of a payload; the nil payload is
given version 0. -/
def payloadVersion : ExecutionPayload → Nat
  | none => 0
  | some d => d.Version

/-- Modelled from the spec: `engine.ForkchoiceState` is declared in
`mod/primitives/engine`; head, safe and finalized block hashes. -/
structure ForkchoiceState where
  HeadBlockHash : ExecutionHash
  SafeBlockHash : ExecutionHash
  FinalizedBlockHash : ExecutionHash
  deriving DecidableEq

/-- Modelled from the spec: the concrete value behind the interface
`types.PayloadAttributer` is declared in `mod/execution/types`; the variants
differ by which optional fields (withdrawals, parent beacon root) are
present. -/
structure PayloadAttributes where
  Timestamp : Nat
  PrevRandao : Root
  SuggestedFeeRecipient : Nat
  Withdrawals : Option (List Nat)
  ParentBeaconBlockRoot : Option Root
  deriving DecidableEq

/-- The interface value `types.PayloadAttributer`: `none` is the nil
interface, the absent attributes. -/
abbrev PayloadAttributer := Option PayloadAttributes

/-- Modelled from the spec: `engine.PayloadID` is declared in
`mod/primitives/engine`; an opaque 8-byte identifier, kept as the number its
bytes spell. -/
abbrev PayloadID := Fin (2 ^ 64)

/-! ## `mod/execution/types.go` -/

/-- Struct `NewPayloadRequest` (types.go, lines 38-45). -/
structure NewPayloadRequest where
  ExecutionPayload : ExecutionPayload
  VersionedHashes : Slice ExecutionHash
  ParentBeaconBlockRoot : Option Root
  deriving DecidableEq

/-- Function `BuildNewPayloadRequest` (types.go, lines 48-58): the address of a fresh
struct holding the three arguments. The Go function has one result, a
pointer; `none` would be the nil pointer. -/
def BuildNewPayloadRequest (executionPayload : ExecutionPayload)
    (versionedHashes : Slice ExecutionHash)
    (parentBeaconBlockRoot : Option Root) : Option NewPayloadRequest :=
  some
    { ExecutionPayload := executionPayload
      VersionedHashes := versionedHashes
      ParentBeaconBlockRoot := parentBeaconBlockRoot }

/-- Struct `ForkchoiceUpdateRequest` (types.go, lines 61-69). -/
structure ForkchoiceUpdateRequest where
  State : Option ForkchoiceState
  PayloadAttributes : PayloadAttributer
  ForkVersion : Nat
  deriving DecidableEq

/-- Function `BuildForkchoiceUpdateRequest` (types.go, lines 72-82). -/
def BuildForkchoiceUpdateRequest (state : Option ForkchoiceState)
    (payloadAttributes : PayloadAttributer) (forkVersion : Nat) :
    Option ForkchoiceUpdateRequest :=
  some
    { State := state
      PayloadAttributes := payloadAttributes
      ForkVersion := forkVersion }

/-- Struct `GetPayloadRequest` (types.go, lines 85-91). -/
structure GetPayloadRequest where
  PayloadID : PayloadID
  ForkVersion : Nat
  deriving DecidableEq

/-- Function `BuildGetPayloadRequest` (types.go, lines 94-102). -/
def BuildGetPayloadRequest (payloadID : PayloadID) (forkVersion : Nat) :
    Option GetPayloadRequest :=
  some
    { PayloadID := payloadID
      ForkVersion := forkVersion }

/-! ### Sample values -/

/-- A payload of fork version `version` with the transactions `txs`. -/
def samplePayload (version : Nat) (txs : List (List Nat)) : ExecutionPayload :=
  some
    { Version := version
      ParentHash := 1
      FeeRecipient := 2
      StateRoot := 3
      ReceiptsRoot := 4
      LogsBloom := []
      Random := 5
      Number := 6
      GasLimit := 30000000
      GasUsed := 21000
      Timestamp := 1700000000
      ExtraData := []
      BaseFeePerGas := 7
      BlobGasUsed := some 262144
      ExcessBlobGas := some 0
      Transactions := txs
      Withdrawals := some [] }

/-- Two blob transactions and one legacy transaction. -/
def twoBlobTxs : List (List Nat) := [[3, 1, 2], [2, 9], [3, 7]]

/-- Payload attributes that carry a parent beacon block root. -/
def attrsWithRoot : PayloadAttributes :=
  { Timestamp := 1700000012
    PrevRandao := 5
    SuggestedFeeRecipient := 2
    Withdrawals := some []
    ParentBeaconBlockRoot := some 11 }

/-- A forkchoice state. -/
def sampleState : ForkchoiceState :=
  { HeadBlockHash := 21, SafeBlockHash := 20, FinalizedBlockHash := 19 }

/-! ## The Engine Client head -/

/-- Modelled from the spec: the Engine Client is not among the sources at hand.
Its authoritative head is the slot of the last accepted forkchoice update and
the forkchoice state that update carried. -/
structure EngineClient where
  headSlot : Nat
  head : Option ForkchoiceState
  deriving DecidableEq

/-- Modelled from the spec: a forkchoice update as the Engine Client receives
it, the request together with the slot it is for. -/
structure SlotUpdate where
  slot : Nat
  request : ForkchoiceUpdateRequest
  deriving DecidableEq

/-- Modelled from the spec: what the Engine Client did with an update. Neither
value is an error. -/
inductive UpdateOutcome where
  | applied
  | ignoredStale
  deriving DecidableEq

/-- Modelled from the spec: section 4.3, updates are accepted only in
non-decreasing slot order; an update for a slot older than the current head
is a no-op (logged, not an error). -/
def applyForkchoiceUpdate (c : EngineClient) (u : SlotUpdate) :
    EngineClient × UpdateOutcome :=
  if u.slot < c.headSlot then (c, UpdateOutcome.ignoredStale)
  else ({ headSlot := u.slot, head := u.request.State }, UpdateOutcome.applied)

/-- Modelled from the spec: the updates of a sequence applied one after the
other under the single-writer discipline. -/
def applyForkchoiceUpdates (c : EngineClient) (us : List SlotUpdate) : EngineClient :=
  us.foldl (fun acc u => (applyForkchoiceUpdate acc u).1) c

/-- The largest of a starting slot and the slots of a sequence of updates. -/
def maxSlot (start : Nat) (us : List SlotUpdate) : Nat :=
  us.foldl (fun m u => max m u.slot) start

/-- A head update for `slot` built by `BuildForkchoiceUpdateRequest` shape. -/
def headUpdate (slot : Nat) (hash : ExecutionHash) : SlotUpdate :=
  { slot := slot
    request :=
      { State := some { HeadBlockHash := hash, SafeBlockHash := 0, FinalizedBlockHash := 0 }
        PayloadAttributes := none
        ForkVersion := 4 } }

/-! ## `mod/node-builder/builder.go` -/

/-- Struct `AppInfo` (builder.go, lines 50-59); `Creator` stands for
`servertypes.AppCreator[T]` and `Config` for `depinject.Config`. -/
structure AppInfo (Creator Config : Type) where
  Name : String
  Description : String
  Creator : Creator
  Config : Config

/-- Struct `NodeBuilder` (builder.go, lines 62-65): the struct a `*NodeBuilder`
points to; `appInfo` is a pointer, `none` when nil. -/
structure NodeBuilder (Creator Config : Type) where
  appInfo : Option (AppInfo Creator Config)

/-- Function `NewNodeBuilder` (builder.go, lines 68-70): `&NodeBuilder[T]{}`, every
field at its zero value. -/
def NewNodeBuilder (Creator Config : Type) : NodeBuilder Creator Config :=
  { appInfo := none }

/-- How a Go call can end other than by returning. -/
inductive Panic (Err : Type) where
  /-- Run-time panic of a field read through a nil pointer. -/
  | nilDereference
  /-- The statement `panic(err)`. -/
  | raised (err : Err)
  /-- Run-time panic of a failed type assertion. -/
  | typeAssertion
  deriving DecidableEq

/-- The calls `PersistentPreRunE` makes into other packages. -/
inductive Call where
  | SetOut
  | SetErr
  | ReadPersistentCommandFlags
  | VerifyTosAcceptedOrPrompt
  | InitClientConfig
  | CreateClientConfig
  | SetCmdClientContextHandler
  | InitAppConfig
  | InitCometBFTConfig
  | InterceptConfigsPreRunHandler
  deriving DecidableEq

/-- The functions of other packages that `PersistentPreRunE` calls. A Go
`error` result is `Option Err`, `none` being nil; a function that receives the
`*cobra.Command` returns the command as it leaves it. -/
structure PreRunEnv (ClientCtx Cmd Err Cfg CmtCfg : Type) where
  TermsOfServiceURL : String
  SetOut : Cmd → Cmd
  SetErr : Cmd → Cmd
  ReadPersistentCommandFlags : ClientCtx → Cmd → Cmd × ClientCtx × Option Err
  VerifyTosAcceptedOrPrompt : String → String → ClientCtx → Cmd → Cmd × Option Err
  InitClientConfig : String × Cfg
  CreateClientConfig : ClientCtx → String → Cfg → ClientCtx × Option Err
  SetCmdClientContextHandler : ClientCtx → Cmd → Cmd × Option Err
  InitAppConfig : String × Cfg
  InitCometBFTConfig : CmtCfg
  InterceptConfigsPreRunHandler : Cmd → String → Cfg → CmtCfg → Cmd × Option Err

/-- What `PersistentPreRunE` reads and writes: the captured variable
`clientCtx`, the command it is run for, and the log of the calls made so far,
each with the error it returned. -/
structure PreRunState (ClientCtx Cmd Err : Type) where
  clientCtx : ClientCtx
  cmd : Cmd
  log : List (Call × Option Err)

/-- How a run of `PersistentPreRunE` ends. -/
inductive PreRunOutcome (Err : Type) where
  | returned (err : Option Err)
  | panicked (p : Panic Err)
  deriving DecidableEq

section PreRun

variable {Creator Config ClientCtx Cmd Err Cfg CmtCfg : Type}

/-- The closure `PersistentPreRunE` of the root command (builder.go, lines
114-159). `nb` is the builder the closure captured, read when the closure
runs. -/
def PersistentPreRunE (env : PreRunEnv ClientCtx Cmd Err Cfg CmtCfg)
    (nb : NodeBuilder Creator Config) (st : PreRunState ClientCtx Cmd Err) :
    PreRunState ClientCtx Cmd Err × PreRunOutcome Err :=
  -- cmd.SetOut(cmd.OutOrStdout()); cmd.SetErr(cmd.ErrOrStderr())
  let cmd := env.SetErr (env.SetOut st.cmd)
  let log := st.log ++ [(Call.SetOut, none), (Call.SetErr, none)]
  -- clientCtx, err = client.ReadPersistentCommandFlags(clientCtx, cmd.Flags())
  match env.ReadPersistentCommandFlags st.clientCtx cmd with
  | (cmd, clientCtx, some err) =>
    ({ clientCtx := clientCtx, cmd := cmd,
       log := log ++ [(Call.ReadPersistentCommandFlags, some err)] },
     PreRunOutcome.returned (some err))
  | (cmd, clientCtx, none) =>
    let log := log ++ [(Call.ReadPersistentCommandFlags, none)]
    -- nb.appInfo.Name
    match nb.appInfo with
    | none =>
      ({ clientCtx := clientCtx, cmd := cmd, log := log },
       PreRunOutcome.panicked Panic.nilDereference)
    | some info =>
      -- tos.VerifyTosAcceptedOrPrompt(nb.appInfo.Name, TermsOfServiceURL, clientCtx, cmd)
      match env.VerifyTosAcceptedOrPrompt info.Name env.TermsOfServiceURL clientCtx cmd with
      | (cmd, some err) =>
        ({ clientCtx := clientCtx, cmd := cmd,
           log := log ++ [(Call.VerifyTosAcceptedOrPrompt, some err)] },
         PreRunOutcome.returned (some err))
      | (cmd, none) =>
        -- customClientTemplate, customClientConfig := modclient.InitClientConfig()
        let log := log ++ [(Call.VerifyTosAcceptedOrPrompt, none), (Call.InitClientConfig, none)]
        -- clientCtx, err = config.CreateClientConfig(clientCtx, template, config)
        match env.CreateClientConfig clientCtx env.InitClientConfig.1 env.InitClientConfig.2 with
        | (clientCtx, some err) =>
          ({ clientCtx := clientCtx, cmd := cmd,
             log := log ++ [(Call.CreateClientConfig, some err)] },
           PreRunOutcome.returned (some err))
        | (clientCtx, none) =>
          let log := log ++ [(Call.CreateClientConfig, none)]
          -- client.SetCmdClientContextHandler(clientCtx, cmd)
          match env.SetCmdClientContextHandler clientCtx cmd with
          | (cmd, some err) =>
            ({ clientCtx := clientCtx, cmd := cmd,
               log := log ++ [(Call.SetCmdClientContextHandler, some err)] },
             PreRunOutcome.returned (some err))
          | (cmd, none) =>
            -- modclient.InitAppConfig(); modclient.InitCometBFTConfig()
            let log := log ++ [(Call.SetCmdClientContextHandler, none),
              (Call.InitAppConfig, none), (Call.InitCometBFTConfig, none)]
            -- return server.InterceptConfigsPreRunHandler(cmd, template, config, cmtConfig)
            match env.InterceptConfigsPreRunHandler cmd env.InitAppConfig.1
                env.InitAppConfig.2 env.InitCometBFTConfig with
            | (cmd, err) =>
              ({ clientCtx := clientCtx, cmd := cmd,
                 log := log ++ [(Call.InterceptConfigsPreRunHandler, err)] },
               PreRunOutcome.returned err)

/-- The five fallible steps of `PersistentPreRunE`, in source order. -/
def fallibleSteps : List Call :=
  [Call.ReadPersistentCommandFlags, Call.VerifyTosAcceptedOrPrompt, Call.CreateClientConfig,
   Call.SetCmdClientContextHandler, Call.InterceptConfigsPreRunHandler]

/-- Whether a call is one of the five fallible steps. -/
def isFallible (c : Call) : Bool := decide (c ∈ fallibleSteps)

/-- The log entries a run added to the log it started from. -/
def newEntries (before after : PreRunState ClientCtx Cmd Err) : List (Call × Option Err) :=
  after.log.drop before.log.length

/-- The fallible steps among the calls of a list of log entries, in order. -/
def fallibleCalls (entries : List (Call × Option Err)) : List Call :=
  (entries.map Prod.fst).filter isFallible

end PreRun

/-- The closure stored in the field `PersistentPreRunE` of the root command:
the captured variable `clientCtx` as `depinject.Inject` set it, and the code of
the closure. -/
structure PreRunClosure (Creator Config ClientCtx Cmd Err : Type) where
  clientCtx : ClientCtx
  run : NodeBuilder Creator Config → PreRunState ClientCtx Cmd Err →
    PreRunState ClientCtx Cmd Err × PreRunOutcome Err

/-- The `cobra.Command` that `BuildRootCmd` builds: the three fields the struct
literal sets (builder.go, lines 111-160) and `Rest`, all the other fields. -/
structure Command (Creator Config ClientCtx Cmd Err Rest : Type) where
  Use : String
  Short : String
  PersistentPreRunE : Option (PreRunClosure Creator Config ClientCtx Cmd Err)
  Rest : Rest

/-- The calls of `BuildRootCmd` that receive the injected values or the
command. -/
inductive BuildCall where
  | Inject
  | DefaultRootCommandSetup
  | EnhanceRootCommand
  deriving DecidableEq

/-- The functions of other packages that `BuildRootCmd` calls. `Inject` stands
for `depinject.Inject` applied to the application config together with the
supplied logger and app options and the two providers; it fills the three
output variables or returns an error. `ZeroRest` is the zero value of the
fields the struct literal leaves out. -/
structure BuildEnv (Creator Config ClientCtx Cmd Err Rest AutoCliOpts ModuleManager App Ctx :
    Type) where
  Inject : Config → Except Err (AutoCliOpts × ModuleManager × ClientCtx)
  ZeroRest : Rest
  DefaultRootCommandSetup : Command Creator Config ClientCtx Cmd Err Rest → ModuleManager →
    Creator → (App → ClientCtx → Ctx → Except (Panic Err) (Option Err)) →
    Command Creator Config ClientCtx Cmd Err Rest
  EnhanceRootCommand : AutoCliOpts → Command Creator Config ClientCtx Cmd Err Rest →
    Command Creator Config ClientCtx Cmd Err Rest × Option Err
  IsBeaconApp : App → Bool
  PostStartup : App → Ctx → ClientCtx → Option Err

section Build

variable {Creator Config ClientCtx Cmd Err Cfg CmtCfg Rest AutoCliOpts ModuleManager App Ctx : Type}

/-- The function literal passed to `DefaultRootCommandSetup` (builder.go,
lines 166-177): `interface{}(_app).(BeaconApp).PostStartup(ctx, clientCtx)`. -/
def postStartup
    (benv : BuildEnv Creator Config ClientCtx Cmd Err Rest AutoCliOpts ModuleManager App Ctx)
    (app : App) (clientCtx : ClientCtx) (ctx : Ctx) : Except (Panic Err) (Option Err) :=
  if benv.IsBeaconApp app then Except.ok (benv.PostStartup app ctx clientCtx)
  else Except.error Panic.typeAssertion

/-- Function `BuildRootCmd` (builder.go, lines 86-185). The result is the list of the
calls made, in order, and either the panic that ended the call or the command
returned. -/
def BuildRootCmd
    (benv : BuildEnv Creator Config ClientCtx Cmd Err Rest AutoCliOpts ModuleManager App Ctx)
    (penv : PreRunEnv ClientCtx Cmd Err Cfg CmtCfg) (nb : NodeBuilder Creator Config) :
    List BuildCall × Except (Panic Err) (Command Creator Config ClientCtx Cmd Err Rest) :=
  -- nb.appInfo.Config
  match nb.appInfo with
  | none => ([], Except.error Panic.nilDereference)
  | some info =>
    -- if err := depinject.Inject(...); err != nil { panic(err) }
    match benv.Inject info.Config with
    | Except.error err => ([BuildCall.Inject], Except.error (Panic.raised err))
    | Except.ok (autoCliOpts, mm, clientCtx) =>
      -- rootCmd := &cobra.Command{Use: ..., Short: ..., PersistentPreRunE: ...}
      let rootCmd : Command Creator Config ClientCtx Cmd Err Rest :=
        { Use := info.Name
          Short := info.Description
          PersistentPreRunE := some { clientCtx := clientCtx, run := PersistentPreRunE penv }
          Rest := benv.ZeroRest }
      -- cmdlib.DefaultRootCommandSetup(rootCmd, mm, nb.appInfo.Creator, func ...)
      let rootCmd := benv.DefaultRootCommandSetup rootCmd mm info.Creator (postStartup benv)
      -- if err := autoCliOpts.EnhanceRootCommand(rootCmd); err != nil { panic(err) }
      match benv.EnhanceRootCommand autoCliOpts rootCmd with
      | (_, some err) =>
        ([BuildCall.Inject, BuildCall.DefaultRootCommandSetup, BuildCall.EnhanceRootCommand],
         Except.error (Panic.raised err))
      | (rootCmd, none) =>
        ([BuildCall.Inject, BuildCall.DefaultRootCommandSetup, BuildCall.EnhanceRootCommand],
         Except.ok rootCmd)

end Build

/-! ### Sample environments -/

/-- A pre-run environment over strings and numbers in which step `k` of the
five fallible steps (counted from 1) returns the error `"step k failed"` and
every other step returns nil; with `k = 0` no step fails. -/
def failingAt (k : Nat) : PreRunEnv Nat (List String) String Nat Nat :=
  { TermsOfServiceURL := "https://example.org/tos"
    SetOut := fun cmd => cmd ++ ["out"]
    SetErr := fun cmd => cmd ++ ["err"]
    ReadPersistentCommandFlags := fun ctx cmd =>
      (cmd, ctx + 1, if k = 1 then some "step 1 failed" else none)
    VerifyTosAcceptedOrPrompt := fun _ _ _ cmd =>
      (cmd, if k = 2 then some "step 2 failed" else none)
    InitClientConfig := ("client template", 7)
    CreateClientConfig := fun ctx _ _ =>
      (ctx + 10, if k = 3 then some "step 3 failed" else none)
    SetCmdClientContextHandler := fun _ cmd =>
      (cmd ++ ["client context handler"], if k = 4 then some "step 4 failed" else none)
    InitAppConfig := ("app template", 8)
    InitCometBFTConfig := 9
    InterceptConfigsPreRunHandler := fun cmd _ _ _ =>
      (cmd ++ ["server config handler"], if k = 5 then some "step 5 failed" else none) }

/-- A builder whose `appInfo` is set. -/
def sampleBuilder : NodeBuilder Nat Nat :=
  { appInfo := some { Name := "beacond", Description := "node", Creator := 1, Config := 2 } }

/-- The state a first run of the closure starts from. -/
def freshState : PreRunState Nat (List String) String :=
  { clientCtx := 0, cmd := [], log := [] }

/-- A build environment over strings and numbers in which every call
succeeds. -/
def sampleBuildEnv : BuildEnv Nat Nat Nat (List String) String (List String) Nat Nat Nat Nat :=
  { Inject := fun cfg => Except.ok (cfg, cfg + 1, cfg + 2)
    ZeroRest := []
    DefaultRootCommandSetup := fun cmd _ _ _ => { cmd with Rest := cmd.Rest ++ ["start"] }
    EnhanceRootCommand := fun _ cmd => ({ cmd with Rest := cmd.Rest ++ ["autocli"] }, none)
    IsBeaconApp := fun _ => true
    PostStartup := fun _ _ _ => none }

/-! ## Theorems: the request builders -/

/-- C1, counterexample. A payload with two blob transactions and a list of one
versioned hash: the counts differ, yet `BuildNewPayloadRequest` returns a
request, so "fails if and only if the counts differ" is false there. -/
theorem buildNewPayloadRequest_hash_count_counterexample :
    blobCount (samplePayload 4 twoBlobTxs) = 2 ∧
    Slice.len (some [100] : Slice ExecutionHash) = 1 ∧
    (BuildNewPayloadRequest (samplePayload 4 twoBlobTxs) (some [100]) (some 11)).isSome = true ∧
    ¬ (BuildNewPayloadRequest (samplePayload 4 twoBlobTxs) (some [100]) (some 11) = none ↔
        Slice.len (some [100] : Slice ExecutionHash) ≠ blobCount (samplePayload 4 twoBlobTxs)) := by
  decide

/-- C1, amended. For every payload, hash list and parent beacon root,
`BuildNewPayloadRequest` returns a request carrying the hash list, when the
number of hashes equals the number of blob transactions and when it differs. -/
theorem buildNewPayloadRequest_ignores_hash_count (P : ExecutionPayload)
    (H : Slice ExecutionHash) (R : Option Root) :
    (Slice.len H = blobCount P →
      ∃ r, BuildNewPayloadRequest P H R = some r ∧ r.VersionedHashes = H) ∧
    (Slice.len H ≠ blobCount P →
      ∃ r, BuildNewPayloadRequest P H R = some r ∧ r.VersionedHashes = H) :=
  ⟨fun _ => ⟨_, rfl, rfl⟩, fun _ => ⟨_, rfl, rfl⟩⟩

/-- C1, witness: the payload with two blob transactions gets a request with
exactly two hashes and with one hash. -/
theorem buildNewPayloadRequest_ignores_hash_count_witness :
    (∃ r, BuildNewPayloadRequest (samplePayload 4 twoBlobTxs) (some [100, 101]) none = some r ∧
      r.VersionedHashes = some [100, 101]) ∧
    (∃ r, BuildNewPayloadRequest (samplePayload 4 twoBlobTxs) (some [100]) none = some r ∧
      r.VersionedHashes = some [100]) :=
  ⟨(buildNewPayloadRequest_ignores_hash_count (samplePayload 4 twoBlobTxs)
      (some [100, 101]) none).1 (by decide),
   (buildNewPayloadRequest_ignores_hash_count (samplePayload 4 twoBlobTxs)
      (some [100]) none).2 (by decide)⟩

/-- C2, counterexample. Attributes with a present parent beacon block root and
fork version 3, earlier than an introducing version 4: the builder returns a
request carrying the attributes instead of failing. -/
theorem buildForkchoiceUpdateRequest_pre_upgrade_counterexample :
    attrsWithRoot.ParentBeaconBlockRoot.isSome = true ∧ (3 : Nat) < 4 ∧
    BuildForkchoiceUpdateRequest (some sampleState) (some attrsWithRoot) 3 =
      some { State := some sampleState, PayloadAttributes := some attrsWithRoot,
             ForkVersion := 3 } ∧
    BuildForkchoiceUpdateRequest (some sampleState) (some attrsWithRoot) 3 ≠ none := by
  decide

/-- C2, amended. For every forkchoice state and every attributes value with a
present parent beacon block root, `BuildForkchoiceUpdateRequest` returns a
request carrying the same attributes and fork version, when the fork version
is before the version `rootVersion` that introduces the root and when it is at
or after it. -/
theorem buildForkchoiceUpdateRequest_ignores_fork_version (rootVersion : Nat)
    (state : Option ForkchoiceState) (attrs : PayloadAttributes) (forkVersion : Nat)
    (hroot : attrs.ParentBeaconBlockRoot.isSome = true) :
    (forkVersion < rootVersion →
      ∃ r, BuildForkchoiceUpdateRequest state (some attrs) forkVersion = some r ∧
        r.PayloadAttributes = some attrs ∧ r.ForkVersion = forkVersion ∧
        (r.PayloadAttributes.bind PayloadAttributes.ParentBeaconBlockRoot).isSome = true) ∧
    (rootVersion ≤ forkVersion →
      ∃ r, BuildForkchoiceUpdateRequest state (some attrs) forkVersion = some r ∧
        r.PayloadAttributes = some attrs ∧ r.ForkVersion = forkVersion ∧
        (r.PayloadAttributes.bind PayloadAttributes.ParentBeaconBlockRoot).isSome = true) :=
  ⟨fun _ => ⟨_, rfl, rfl, rfl, hroot⟩, fun _ => ⟨_, rfl, rfl, rfl, hroot⟩⟩

/-- C2, witness: the same attributes at fork versions 3 and 4, the root being
introduced at version 4. -/
theorem buildForkchoiceUpdateRequest_ignores_fork_version_witness :
    (∃ r, BuildForkchoiceUpdateRequest (some sampleState) (some attrsWithRoot) 3 = some r ∧
        r.PayloadAttributes = some attrsWithRoot ∧ r.ForkVersion = 3 ∧
        (r.PayloadAttributes.bind PayloadAttributes.ParentBeaconBlockRoot).isSome = true) ∧
    (∃ r, BuildForkchoiceUpdateRequest (some sampleState) (some attrsWithRoot) 4 = some r ∧
        r.PayloadAttributes = some attrsWithRoot ∧ r.ForkVersion = 4 ∧
        (r.PayloadAttributes.bind PayloadAttributes.ParentBeaconBlockRoot).isSome = true) :=
  ⟨(buildForkchoiceUpdateRequest_ignores_fork_version 4 (some sampleState) attrsWithRoot 3
      (by decide)).1 (by decide),
   (buildForkchoiceUpdateRequest_ignores_fork_version 4 (some sampleState) attrsWithRoot 4
      (by decide)).2 (by decide)⟩

/-- C3, counterexample. With the root introduced at version 4: a payload of
version 4 with an absent root, and a payload of version 3 with a present root,
both get a request value. -/
theorem buildNewPayloadRequest_beacon_root_counterexample :
    (payloadVersion (samplePayload 4 twoBlobTxs) = 4 ∧ (4 : Nat) ≤ 4 ∧
      BuildNewPayloadRequest (samplePayload 4 twoBlobTxs) (some [100, 101]) none ≠ none) ∧
    (payloadVersion (samplePayload 3 []) = 3 ∧ (3 : Nat) < 4 ∧
      BuildNewPayloadRequest (samplePayload 3 []) (some []) (some 11) ≠ none) := by
  decide

/-- C3, amended. `BuildNewPayloadRequest` does not check the presence of the
parent beacon block root against the fork version of the payload: for every
payload and hash list it returns a request whose root is the argument, also
with an absent root at or after the introducing version `rootVersion` and with
a present root before it. -/
theorem buildNewPayloadRequest_ignores_beacon_root (rootVersion : Nat) (P : ExecutionPayload)
    (H : Slice ExecutionHash) (R : Option Root) :
    (R = none → rootVersion ≤ payloadVersion P →
      ∃ r, BuildNewPayloadRequest P H R = some r ∧ r.ParentBeaconBlockRoot = none) ∧
    (R ≠ none → payloadVersion P < rootVersion →
      ∃ r, BuildNewPayloadRequest P H R = some r ∧ r.ParentBeaconBlockRoot = R) ∧
    (∃ r, BuildNewPayloadRequest P H R = some r ∧ r.ParentBeaconBlockRoot = R) :=
  ⟨fun h _ => ⟨_, rfl, h⟩, fun _ _ => ⟨_, rfl, rfl⟩, ⟨_, rfl, rfl⟩⟩

/-- C3, witness: version 4 with an absent root and version 3 with a present
root, the root being introduced at version 4. -/
theorem buildNewPayloadRequest_ignores_beacon_root_witness :
    (∃ r, BuildNewPayloadRequest (samplePayload 4 twoBlobTxs) (some [100, 101]) none = some r ∧
      r.ParentBeaconBlockRoot = none) ∧
    (∃ r, BuildNewPayloadRequest (samplePayload 3 []) (some []) (some 11) = some r ∧
      r.ParentBeaconBlockRoot = some 11) :=
  ⟨(buildNewPayloadRequest_ignores_beacon_root 4 (samplePayload 4 twoBlobTxs)
      (some [100, 101]) none).1 rfl (by decide),
   (buildNewPayloadRequest_ignores_beacon_root 4 (samplePayload 3 []) (some [])
      (some 11)).2.1 (by decide) (by decide)⟩

/-- C4. The request `BuildNewPayloadRequest` returns carries its arguments
verbatim: the payload, the hash list (same length, same hash at every
position) and the parent beacon block root, absent exactly when the argument
is absent. -/
theorem buildNewPayloadRequest_verbatim (P : ExecutionPayload) (H : Slice ExecutionHash)
    (R : Option Root) :
    ∃ r, BuildNewPayloadRequest P H R = some r ∧
      r.ExecutionPayload = P ∧
      r.VersionedHashes = H ∧
      Slice.len r.VersionedHashes = Slice.len H ∧
      (∀ i, Slice.at r.VersionedHashes i = Slice.at H i) ∧
      (r.ParentBeaconBlockRoot = none ↔ R = none) ∧
      r.ParentBeaconBlockRoot = R :=
  ⟨_, rfl, rfl, rfl, rfl, fun _ => rfl, Iff.rfl, rfl⟩

/-- C5. With absent payload attributes `BuildForkchoiceUpdateRequest` returns
the pure head update (the given state, the given fork version, no
attributes); with present attributes it returns a request that carries them
unchanged. -/
theorem buildForkchoiceUpdateRequest_head_update (state : Option ForkchoiceState)
    (forkVersion : Nat) :
    (∃ r, BuildForkchoiceUpdateRequest state none forkVersion = some r ∧
      r.State = state ∧ r.ForkVersion = forkVersion ∧ r.PayloadAttributes = none) ∧
    (∀ attrs : PayloadAttributes,
      ∃ r, BuildForkchoiceUpdateRequest state (some attrs) forkVersion = some r ∧
        r.PayloadAttributes = some attrs ∧ r.State = state ∧ r.ForkVersion = forkVersion) :=
  ⟨⟨_, rfl, rfl, rfl, rfl⟩, fun _ => ⟨_, rfl, rfl, rfl, rfl⟩⟩

/-- C6. `BuildGetPayloadRequest` returns a request with the given payload ID
and fork version, for every fork version: two calls with one payload ID and
two fork versions return requests with that ID that differ in nothing but the
fork version, and are equal only when the fork versions are. -/
theorem buildGetPayloadRequest_copies (payloadID : PayloadID) (forkVersion other : Nat) :
    ∃ r1 r2, BuildGetPayloadRequest payloadID forkVersion = some r1 ∧
      BuildGetPayloadRequest payloadID other = some r2 ∧
      r1.PayloadID = payloadID ∧ r1.ForkVersion = forkVersion ∧
      r2.PayloadID = payloadID ∧ r2.ForkVersion = other ∧
      { r1 with ForkVersion := r2.ForkVersion } = r2 ∧
      (r1 = r2 ↔ forkVersion = other) := by
  refine ⟨_, _, rfl, rfl, rfl, rfl, rfl, rfl, rfl, ?_⟩
  constructor
  · intro h
    exact congrArg GetPayloadRequest.ForkVersion h
  · intro h
    rw [h]

/-- C8. The three builders return a non-nil request for every input, the nil
payload, the nil and the empty hash list, the absent root, the nil forkchoice
state and the absent attributes included. -/
theorem builders_total (P : ExecutionPayload) (H : Slice ExecutionHash) (R : Option Root)
    (state : Option ForkchoiceState) (attrs : PayloadAttributer) (payloadID : PayloadID)
    (forkVersion : Nat) :
    BuildNewPayloadRequest P H R ≠ none ∧
    BuildForkchoiceUpdateRequest state attrs forkVersion ≠ none ∧
    BuildGetPayloadRequest payloadID forkVersion ≠ none ∧
    BuildNewPayloadRequest P none none ≠ none ∧
    BuildNewPayloadRequest P (some []) none ≠ none ∧
    BuildForkchoiceUpdateRequest none none forkVersion ≠ none := by
  simp [BuildNewPayloadRequest, BuildForkchoiceUpdateRequest, BuildGetPayloadRequest]

/-! ## Theorems: the Engine Client head -/

/-- One update leaves the head at the larger of the old head slot and the slot
of the update. -/
theorem applyForkchoiceUpdate_headSlot (c : EngineClient) (u : SlotUpdate) :
    (applyForkchoiceUpdate c u).1.headSlot = max c.headSlot u.slot := by
  unfold applyForkchoiceUpdate
  split
  · rename_i h
    simp [Nat.max_eq_left (Nat.le_of_lt h)]
  · rename_i h
    simp [Nat.max_eq_right (Nat.le_of_not_lt h)]

/-- A sequence of updates leaves the head at the largest slot seen. -/
theorem applyForkchoiceUpdates_headSlot (us : List SlotUpdate) (c : EngineClient) :
    (applyForkchoiceUpdates c us).headSlot = maxSlot c.headSlot us := by
  induction us generalizing c with
  | nil => rfl
  | cons u us ih =>
    have h := ih (applyForkchoiceUpdate c u).1
    rw [applyForkchoiceUpdate_headSlot] at h
    simpa [applyForkchoiceUpdates, maxSlot] using h

/-- The largest slot of a sequence is at least the starting slot. -/
theorem le_maxSlot (us : List SlotUpdate) (start : Nat) : start ≤ maxSlot start us := by
  induction us generalizing start with
  | nil => exact Nat.le_refl _
  | cons u us ih =>
    have h := ih (max start u.slot)
    have h2 : start ≤ max start u.slot := Nat.le_max_left _ _
    simpa [maxSlot] using Nat.le_trans h2 h

/-- Applying two sequences one after the other is applying their
concatenation. -/
theorem applyForkchoiceUpdates_append (c : EngineClient) (us vs : List SlotUpdate) :
    applyForkchoiceUpdates c (us ++ vs) =
      applyForkchoiceUpdates (applyForkchoiceUpdates c us) vs := by
  simp [applyForkchoiceUpdates, List.foldl_append]

/-- C7. The head never regresses under forkchoice updates: after any sequence
of updates the head slot is the largest of the starting head slot and the
slots of the sequence, it never decreases as the sequence goes on, an update
for a slot older than the head leaves the client as it is and is not an
error, and from a head no later than slot 10 the updates for slot 10 and
slot 9 leave the head at slot 10 in either order. -/
theorem head_never_regresses (c : EngineClient) (us vs : List SlotUpdate)
    (u a b : SlotUpdate) :
    c.headSlot ≤ (applyForkchoiceUpdates c us).headSlot ∧
    (applyForkchoiceUpdates c us).headSlot ≤ (applyForkchoiceUpdates c (us ++ vs)).headSlot ∧
    (applyForkchoiceUpdates c us).headSlot = maxSlot c.headSlot us ∧
    (u.slot < c.headSlot → applyForkchoiceUpdate c u = (c, UpdateOutcome.ignoredStale)) ∧
    (c.headSlot ≤ 10 → a.slot = 10 → b.slot = 9 →
      (applyForkchoiceUpdates c [a, b]).headSlot = 10 ∧
      (applyForkchoiceUpdates c [b, a]).headSlot = 10) := by
  refine ⟨?_, ?_, applyForkchoiceUpdates_headSlot us c, ?_, ?_⟩
  · rw [applyForkchoiceUpdates_headSlot]
    exact le_maxSlot us _
  · rw [applyForkchoiceUpdates_append, applyForkchoiceUpdates_headSlot vs]
    exact le_maxSlot vs _
  · intro h
    simp [applyForkchoiceUpdate, h]
  · intro hc ha hb
    rw [applyForkchoiceUpdates_headSlot, applyForkchoiceUpdates_headSlot]
    simp only [maxSlot, List.foldl, ha, hb]
    omega

/-- C7, witness: a client whose head is at slot 3 receives the updates for
slot 10 and slot 9 in both orders; the update for slot 2 is stale. -/
theorem head_never_regresses_witness :
    applyForkchoiceUpdate ⟨3, none⟩ (headUpdate 2 5) = (⟨3, none⟩, UpdateOutcome.ignoredStale) ∧
    (applyForkchoiceUpdates ⟨3, none⟩ [headUpdate 10 1, headUpdate 9 2]).headSlot = 10 ∧
    (applyForkchoiceUpdates ⟨3, none⟩ [headUpdate 9 2, headUpdate 10 1]).headSlot = 10 :=
  have h := head_never_regresses ⟨3, none⟩ [] [] (headUpdate 2 5) (headUpdate 10 1)
    (headUpdate 9 2)
  ⟨h.2.2.2.1 (by decide), h.2.2.2.2 (by decide) rfl rfl⟩

/-! ## Theorems: the node builder -/

/-- C9. The builder `NewNodeBuilder` returns has a nil `appInfo`, and on it
`BuildRootCmd` ends in the nil-dereference panic before any call is made and
without a command; for any builder, `BuildRootCmd` ends in that panic exactly
when `appInfo` is nil. -/
theorem buildRootCmd_needs_appInfo
    {Creator Config ClientCtx Cmd Err Cfg CmtCfg Rest AutoCliOpts ModuleManager App Ctx : Type}
    (benv : BuildEnv Creator Config ClientCtx Cmd Err Rest AutoCliOpts ModuleManager App Ctx)
    (penv : PreRunEnv ClientCtx Cmd Err Cfg CmtCfg) (nb : NodeBuilder Creator Config) :
    (NewNodeBuilder Creator Config).appInfo = none ∧
    BuildRootCmd benv penv (NewNodeBuilder Creator Config) =
      ([], Except.error Panic.nilDereference) ∧
    ((BuildRootCmd benv penv nb).2 = Except.error Panic.nilDereference ↔ nb.appInfo = none) := by
  refine ⟨rfl, rfl, ?_⟩
  constructor
  · intro h
    cases hinfo : nb.appInfo with
    | none => rfl
    | some info =>
      exfalso
      simp only [BuildRootCmd, hinfo] at h
      split at h
      · cases h
      · split at h <;> cases h
  · intro h
    simp [BuildRootCmd, h]

/-- What the log of a run of `PersistentPreRunE` shows: the log only grows,
the fallible steps logged are an initial part of the fixed order, a logged
error belongs to the last call and is the result, and after a logged failure
of the terms-of-service verification none of the later calls is logged. -/
theorem persistentPreRunE_log
    {Creator Config ClientCtx Cmd Err Cfg CmtCfg : Type}
    (env : PreRunEnv ClientCtx Cmd Err Cfg CmtCfg) (nb : NodeBuilder Creator Config)
    (st : PreRunState ClientCtx Cmd Err) :
    (PersistentPreRunE env nb st).1.log =
      st.log ++ newEntries st (PersistentPreRunE env nb st).1 ∧
    fallibleCalls (newEntries st (PersistentPreRunE env nb st).1) <+: fallibleSteps ∧
    (∀ c e, (c, some e) ∈ newEntries st (PersistentPreRunE env nb st).1 →
      (PersistentPreRunE env nb st).2 = PreRunOutcome.returned (some e) ∧
      (newEntries st (PersistentPreRunE env nb st).1).getLast? = some (c, some e)) ∧
    (∀ e, (PersistentPreRunE env nb st).2 = PreRunOutcome.returned (some e) →
      ∃ c, c ∈ fallibleSteps ∧
        (newEntries st (PersistentPreRunE env nb st).1).getLast? = some (c, some e)) ∧
    ((PersistentPreRunE env nb st).2 = PreRunOutcome.returned none →
      fallibleCalls (newEntries st (PersistentPreRunE env nb st).1) = fallibleSteps) ∧
    (∀ e, (Call.VerifyTosAcceptedOrPrompt, some e) ∈
        newEntries st (PersistentPreRunE env nb st).1 →
      ∀ c, c ∈ [Call.InitClientConfig, Call.CreateClientConfig,
          Call.SetCmdClientContextHandler, Call.InitAppConfig, Call.InitCometBFTConfig,
          Call.InterceptConfigsPreRunHandler] →
        c ∉ (newEntries st (PersistentPreRunE env nb st).1).map Prod.fst) := by
  unfold PersistentPreRunE
  simp only
  split
  · simp [newEntries, fallibleCalls, fallibleSteps, isFallible]
  · split
    · simp [newEntries, fallibleCalls, fallibleSteps, isFallible]
    · split
      · simp [newEntries, fallibleCalls, fallibleSteps, isFallible]
      · split
        · simp [newEntries, fallibleCalls, fallibleSteps, isFallible]
        · split
          · simp [newEntries, fallibleCalls, fallibleSteps, isFallible]
          · simp [newEntries, fallibleCalls, fallibleSteps, isFallible]
            intro c e hc he
            exact ⟨he.symm, hc.symm, he.symm⟩

/-- C10. `PersistentPreRunE` runs its five fallible steps in the fixed order
`ReadPersistentCommandFlags`, `VerifyTosAcceptedOrPrompt`,
`CreateClientConfig`, `SetCmdClientContextHandler`,
`InterceptConfigsPreRunHandler`, each on what the steps before it left, and
stops at the first failure. Conjuncts 1 to 6 are about the log of the run (it
only grows, its fallible steps are an initial part of the fixed order, a
logged error belongs to the last call and is the result, a run that returns
nil called all five steps, nothing is called after a failed terms-of-service
verification). Conjuncts 7 to 11 tie the run to what the steps of the
environment return: when steps 1 to k-1 return nil and step k returns the
error `e`, the run returns exactly `e`, the calls made are those up to step k
and no later one, and the client context and the command are as step k and
the steps before it left them; when steps 1 to 4 return nil the run returns
whatever `InterceptConfigsPreRunHandler` returns, after all five steps.
Conjunct 12: when step 1 returns nil and `appInfo` is nil, the run ends in the
nil-dereference panic before step 2. -/
theorem persistentPreRunE_stops_at_first_failure
    {Creator Config ClientCtx Cmd Err Cfg CmtCfg : Type}
    (env : PreRunEnv ClientCtx Cmd Err Cfg CmtCfg) (nb : NodeBuilder Creator Config)
    (st : PreRunState ClientCtx Cmd Err) :
    (PersistentPreRunE env nb st).1.log =
      st.log ++ newEntries st (PersistentPreRunE env nb st).1 ∧
    fallibleCalls (newEntries st (PersistentPreRunE env nb st).1) <+: fallibleSteps ∧
    (∀ c e, (c, some e) ∈ newEntries st (PersistentPreRunE env nb st).1 →
      (PersistentPreRunE env nb st).2 = PreRunOutcome.returned (some e) ∧
      (newEntries st (PersistentPreRunE env nb st).1).getLast? = some (c, some e)) ∧
    (∀ e, (PersistentPreRunE env nb st).2 = PreRunOutcome.returned (some e) →
      ∃ c, c ∈ fallibleSteps ∧
        (newEntries st (PersistentPreRunE env nb st).1).getLast? = some (c, some e)) ∧
    ((PersistentPreRunE env nb st).2 = PreRunOutcome.returned none →
      fallibleCalls (newEntries st (PersistentPreRunE env nb st).1) = fallibleSteps) ∧
    (∀ e, (Call.VerifyTosAcceptedOrPrompt, some e) ∈
        newEntries st (PersistentPreRunE env nb st).1 →
      ∀ c, c ∈ [Call.InitClientConfig, Call.CreateClientConfig,
          Call.SetCmdClientContextHandler, Call.InitAppConfig, Call.InitCometBFTConfig,
          Call.InterceptConfigsPreRunHandler] →
        c ∉ (newEntries st (PersistentPreRunE env nb st).1).map Prod.fst) ∧
    -- step 1 fails
    (∀ cmd1 ctx1 e,
      env.ReadPersistentCommandFlags st.clientCtx (env.SetErr (env.SetOut st.cmd)) =
        (cmd1, ctx1, some e) →
      PersistentPreRunE env nb st =
        ({ clientCtx := ctx1, cmd := cmd1,
           log := st.log ++ [(Call.SetOut, none), (Call.SetErr, none),
             (Call.ReadPersistentCommandFlags, some e)] },
         PreRunOutcome.returned (some e))) ∧
    -- step 1 succeeds, step 2 fails
    (∀ cmd1 ctx1 info cmd2 e,
      env.ReadPersistentCommandFlags st.clientCtx (env.SetErr (env.SetOut st.cmd)) =
        (cmd1, ctx1, none) →
      nb.appInfo = some info →
      env.VerifyTosAcceptedOrPrompt info.Name env.TermsOfServiceURL ctx1 cmd1 =
        (cmd2, some e) →
      PersistentPreRunE env nb st =
        ({ clientCtx := ctx1, cmd := cmd2,
           log := st.log ++ [(Call.SetOut, none), (Call.SetErr, none),
             (Call.ReadPersistentCommandFlags, none),
             (Call.VerifyTosAcceptedOrPrompt, some e)] },
         PreRunOutcome.returned (some e))) ∧
    -- steps 1 and 2 succeed, step 3 fails
    (∀ cmd1 ctx1 info cmd2 ctx3 e,
      env.ReadPersistentCommandFlags st.clientCtx (env.SetErr (env.SetOut st.cmd)) =
        (cmd1, ctx1, none) →
      nb.appInfo = some info →
      env.VerifyTosAcceptedOrPrompt info.Name env.TermsOfServiceURL ctx1 cmd1 = (cmd2, none) →
      env.CreateClientConfig ctx1 env.InitClientConfig.1 env.InitClientConfig.2 =
        (ctx3, some e) →
      PersistentPreRunE env nb st =
        ({ clientCtx := ctx3, cmd := cmd2,
           log := st.log ++ [(Call.SetOut, none), (Call.SetErr, none),
             (Call.ReadPersistentCommandFlags, none),
             (Call.VerifyTosAcceptedOrPrompt, none), (Call.InitClientConfig, none),
             (Call.CreateClientConfig, some e)] },
         PreRunOutcome.returned (some e))) ∧
    -- steps 1 to 3 succeed, step 4 fails
    (∀ cmd1 ctx1 info cmd2 ctx3 cmd4 e,
      env.ReadPersistentCommandFlags st.clientCtx (env.SetErr (env.SetOut st.cmd)) =
        (cmd1, ctx1, none) →
      nb.appInfo = some info →
      env.VerifyTosAcceptedOrPrompt info.Name env.TermsOfServiceURL ctx1 cmd1 = (cmd2, none) →
      env.CreateClientConfig ctx1 env.InitClientConfig.1 env.InitClientConfig.2 =
        (ctx3, none) →
      env.SetCmdClientContextHandler ctx3 cmd2 = (cmd4, some e) →
      PersistentPreRunE env nb st =
        ({ clientCtx := ctx3, cmd := cmd4,
           log := st.log ++ [(Call.SetOut, none), (Call.SetErr, none),
             (Call.ReadPersistentCommandFlags, none),
             (Call.VerifyTosAcceptedOrPrompt, none), (Call.InitClientConfig, none),
             (Call.CreateClientConfig, none),
             (Call.SetCmdClientContextHandler, some e)] },
         PreRunOutcome.returned (some e))) ∧
    -- steps 1 to 4 succeed: the result is the result of step 5
    (∀ cmd1 ctx1 info cmd2 ctx3 cmd4 cmd5 err,
      env.ReadPersistentCommandFlags st.clientCtx (env.SetErr (env.SetOut st.cmd)) =
        (cmd1, ctx1, none) →
      nb.appInfo = some info →
      env.VerifyTosAcceptedOrPrompt info.Name env.TermsOfServiceURL ctx1 cmd1 = (cmd2, none) →
      env.CreateClientConfig ctx1 env.InitClientConfig.1 env.InitClientConfig.2 =
        (ctx3, none) →
      env.SetCmdClientContextHandler ctx3 cmd2 = (cmd4, none) →
      env.InterceptConfigsPreRunHandler cmd4 env.InitAppConfig.1 env.InitAppConfig.2
        env.InitCometBFTConfig = (cmd5, err) →
      PersistentPreRunE env nb st =
        ({ clientCtx := ctx3, cmd := cmd5,
           log := st.log ++ [(Call.SetOut, none), (Call.SetErr, none),
             (Call.ReadPersistentCommandFlags, none),
             (Call.VerifyTosAcceptedOrPrompt, none), (Call.InitClientConfig, none),
             (Call.CreateClientConfig, none),
             (Call.SetCmdClientContextHandler, none), (Call.InitAppConfig, none),
             (Call.InitCometBFTConfig, none),
             (Call.InterceptConfigsPreRunHandler, err)] },
         PreRunOutcome.returned err)) ∧
    -- step 1 succeeds and appInfo is nil
    (∀ cmd1 ctx1,
      env.ReadPersistentCommandFlags st.clientCtx (env.SetErr (env.SetOut st.cmd)) =
        (cmd1, ctx1, none) →
      nb.appInfo = none →
      PersistentPreRunE env nb st =
        ({ clientCtx := ctx1, cmd := cmd1,
           log := st.log ++ [(Call.SetOut, none), (Call.SetErr, none),
             (Call.ReadPersistentCommandFlags, none)] },
         PreRunOutcome.panicked Panic.nilDereference)) := by
  have h := persistentPreRunE_log env nb st
  refine ⟨h.1, h.2.1, h.2.2.1, h.2.2.2.1, h.2.2.2.2.1, h.2.2.2.2.2, ?_, ?_, ?_, ?_, ?_, ?_⟩
  · intro cmd1 ctx1 e h1
    simp [PersistentPreRunE, h1]
  · intro cmd1 ctx1 info cmd2 e h1 hi h2
    simp [PersistentPreRunE, h1, hi, h2]
  · intro cmd1 ctx1 info cmd2 ctx3 e h1 hi h2 h3
    simp [PersistentPreRunE, h1, hi, h2, h3]
  · intro cmd1 ctx1 info cmd2 ctx3 cmd4 e h1 hi h2 h3 h4
    simp [PersistentPreRunE, h1, hi, h2, h3, h4]
  · intro cmd1 ctx1 info cmd2 ctx3 cmd4 cmd5 err h1 hi h2 h3 h4 h5
    simp [PersistentPreRunE, h1, hi, h2, h3, h4, h5]
  · intro cmd1 ctx1 h1 hi
    simp [PersistentPreRunE, h1, hi]

/-- C10, witness: in the sample environments, a run whose terms-of-service
verification fails returns that error with `VerifyTosAcceptedOrPrompt` as its
last call and the command without any handler; a run whose
`CreateClientConfig` fails returns that error; a run in which no step fails
makes all five calls and returns nil. -/
theorem persistentPreRunE_stops_at_first_failure_witness :
    (newEntries freshState (PersistentPreRunE (failingAt 2) sampleBuilder freshState).1).getLast? =
      some (Call.VerifyTosAcceptedOrPrompt, some "step 2 failed") ∧
    (∀ c, c ∈ [Call.InitClientConfig, Call.CreateClientConfig,
        Call.SetCmdClientContextHandler, Call.InitAppConfig, Call.InitCometBFTConfig,
        Call.InterceptConfigsPreRunHandler] →
      c ∉ (newEntries freshState
        (PersistentPreRunE (failingAt 2) sampleBuilder freshState).1).map Prod.fst) ∧
    PersistentPreRunE (failingAt 2) sampleBuilder freshState =
      ({ clientCtx := 1, cmd := ["out", "err"],
         log := [(Call.SetOut, none), (Call.SetErr, none),
           (Call.ReadPersistentCommandFlags, none),
           (Call.VerifyTosAcceptedOrPrompt, some "step 2 failed")] },
       PreRunOutcome.returned (some "step 2 failed")) ∧
    PersistentPreRunE (failingAt 3) sampleBuilder freshState =
      ({ clientCtx := 11, cmd := ["out", "err"],
         log := [(Call.SetOut, none), (Call.SetErr, none),
           (Call.ReadPersistentCommandFlags, none),
           (Call.VerifyTosAcceptedOrPrompt, none), (Call.InitClientConfig, none),
           (Call.CreateClientConfig, some "step 3 failed")] },
       PreRunOutcome.returned (some "step 3 failed")) ∧
    PersistentPreRunE (failingAt 0) sampleBuilder freshState =
      ({ clientCtx := 11,
         cmd := ["out", "err", "client context handler", "server config handler"],
         log := [(Call.SetOut, none), (Call.SetErr, none),
           (Call.ReadPersistentCommandFlags, none),
           (Call.VerifyTosAcceptedOrPrompt, none), (Call.InitClientConfig, none),
           (Call.CreateClientConfig, none),
           (Call.SetCmdClientContextHandler, none), (Call.InitAppConfig, none),
           (Call.InitCometBFTConfig, none),
           (Call.InterceptConfigsPreRunHandler, none)] },
       PreRunOutcome.returned none) :=
  have h2 := persistentPreRunE_stops_at_first_failure (failingAt 2) sampleBuilder freshState
  have h3 := persistentPreRunE_stops_at_first_failure (failingAt 3) sampleBuilder freshState
  have h0 := persistentPreRunE_stops_at_first_failure (failingAt 0) sampleBuilder freshState
  have hmem : (Call.VerifyTosAcceptedOrPrompt, some "step 2 failed") ∈
      newEntries freshState (PersistentPreRunE (failingAt 2) sampleBuilder freshState).1 := by
    decide
  ⟨(h2.2.2.1 _ _ hmem).2, h2.2.2.2.2.2.1 _ hmem,
   h2.2.2.2.2.2.2.2.1 ["out", "err"] 1
     { Name := "beacond", Description := "node", Creator := 1, Config := 2 }
     ["out", "err"] "step 2 failed" rfl rfl rfl,
   h3.2.2.2.2.2.2.2.2.1 ["out", "err"] 1
     { Name := "beacond", Description := "node", Creator := 1, Config := 2 }
     ["out", "err"] 11 "step 3 failed" rfl rfl rfl rfl,
   h0.2.2.2.2.2.2.2.2.2.2.1 ["out", "err"] 1
     { Name := "beacond", Description := "node", Creator := 1, Config := 2 }
     ["out", "err"] 11 ["out", "err", "client context handler"]
     ["out", "err", "client context handler", "server config handler"] none
     rfl rfl rfl rfl rfl rfl⟩

end BeaconKit
